import Mathlib

/-!
Shallow embedding of the hindsight MEV backrun simulator
(`src/simulator/src/{util.rs, sim/core.rs, hindsight.rs}`, `src/src/config.rs`).

Machine integers: Ethereum's `U256` values are modelled as `Nat` together with
an explicit bound `U256_BOUND = 2^256` at the places where the Rust code can
overflow (ethers-rs `U256` arithmetic panics on overflow / division by zero
rather than wrapping; a panic is modelled as `Option.none`).  `I256` values are
modelled as `Int` with the usual two's-complement reinterpretation of a raw
256-bit word.  External collaborators (RPC client, forked EVM, persistence
sink) are passed in as explicit function arguments ("oracles"), so every
control-flow decision the repository's own code makes stays visible.
-/

namespace Hindsight

/-- Upper bound (exclusive) of the 256-bit unsigned integer range. -/
def U256_BOUND : Nat := 2 ^ 256

/-- Largest 256-bit unsigned integer, `U256::MAX` in ethers-rs. -/
def U256_MAX : Nat := 2 ^ 256 - 1

/-- `Q96 = 2^96`, the fixed-point scale used by Uniswap V3 sqrt-prices
(from the `uniswap_v3_math` crate, re-exported in `util.rs`). -/
def Q96 : Nat := 2 ^ 96

/-- `mul_div` from the `uniswap_v3_math` crate as used by `get_price_v3`:
`floor(a * b / denom)` with full-width intermediate precision; it fails when
`denom = 0` or when the result does not fit in 256 bits. -/
def mul_div (a b denom : Nat) : Option Nat :=
  if denom = 0 then none
  else if a * b / denom < U256_BOUND then some (a * b / denom)
  else none

/-- `get_price_v2` (src/simulator/src/util.rs:169-171): returns the price
(token1 per token0), `(reserves1 * 10^token0_decimals) / reserves0`.
ethers-rs `U256` exponentiation and multiplication panic on 256-bit overflow
and division panics on a zero divisor; a panic is modelled as `none`. -/
def get_price_v2 (reserves0 reserves1 token0_decimals : Nat) : Option Nat :=
  if 10 ^ token0_decimals < U256_BOUND then
    if reserves1 * 10 ^ token0_decimals < U256_BOUND then
      if reserves0 = 0 then none
      else some (reserves1 * 10 ^ token0_decimals / reserves0)
    else none
  else none

/-- `get_price_v3` (src/simulator/src/util.rs:173-179): derives virtual
reserves `reserves0 = mul_div(liquidity, Q96, sqrt_price_x96)` and
`reserves1 = mul_div(liquidity, sqrt_price_x96, Q96)` and then returns
`(reserves1 * 10^token0_decimals) / reserves0` exactly as
`get_price_v2` does on those reserves. -/
def get_price_v3 (liquidity sqrt_price_x96 token0_decimals : Nat) : Option Nat :=
  match mul_div liquidity Q96 sqrt_price_x96 with
  | none => none
  | some reserves0 =>
    match mul_div liquidity sqrt_price_x96 Q96 with
    | none => none
    | some reserves1 =>
      if 10 ^ token0_decimals < U256_BOUND then
        if reserves1 * 10 ^ token0_decimals < U256_BOUND then
          if reserves0 = 0 then none
          else some (reserves1 * 10 ^ token0_decimals / reserves0)
        else none
      else none

/-- C7: for every liquidity `L`, sqrt-price `s` and decimals `d` on which both
sides are defined (here: whenever the two `mul_div` reserve computations
succeed), `get_price_v3 L s d` equals `get_price_v2` applied to the V3-derived
reserves `mul_div L Q96 s` and `mul_div L s Q96`. -/
theorem get_price_v3_eq_get_price_v2_on_derived_reserves
    (L s d r0 r1 : Nat)
    (h0 : mul_div L Q96 s = some r0)
    (h1 : mul_div L s Q96 = some r1) :
    get_price_v3 L s d = get_price_v2 r0 r1 d := by
  unfold get_price_v3 get_price_v2
  rw [h0, h1]

/-- Witness for C7 at `L = 5`, `s = Q96`, `d = 18`: both reserve computations
succeed (with value 5) and the two price functions agree. -/
theorem get_price_v3_eq_get_price_v2_witness :
    mul_div 5 Q96 Q96 = some 5 ∧ mul_div 5 Q96 Q96 = some 5 ∧
      get_price_v3 5 Q96 18 = get_price_v2 5 5 18 := by
  refine ⟨by decide, by decide, ?_⟩
  exact get_price_v3_eq_get_price_v2_on_derived_reserves 5 Q96 18 5 5
    (by decide) (by decide)

/-- Modelled from the spec: `PoolVariant` (crate `interfaces`, not under
`src/`): "tagged enum with variants V2 (constant-product) and V3
(concentrated-liquidity)". -/
inductive PoolVariant where
  | UniswapV2 : PoolVariant
  | UniswapV3 : PoolVariant
deriving DecidableEq, Repr

/-- Modelled from the spec: `PoolVariant::other()` "returning the opposite
variant". -/
def PoolVariant.other : PoolVariant → PoolVariant
  | .UniswapV2 => .UniswapV3
  | .UniswapV3 => .UniswapV2

/-- `other()` never returns its argument: the two variants are swapped. -/
theorem PoolVariant.other_ne (v : PoolVariant) : v.other ≠ v := by
  cases v <;> decide

/-- Modelled from the spec: `TokenPair { weth, token }` (crate `interfaces`,
not under `src/`): `weth` is the reference asset regardless of pool token
ordering.  Addresses are modelled as `Nat`. -/
structure TokenPair where
  weth : Nat
  token : Nat
deriving DecidableEq, Repr

/-- Modelled from the spec: `UserTradeParams` (crate `interfaces`, not under
`src/`), with the fields exactly as constructed by `derive_trade_params`
(src/simulator/src/sim/core.rs:176-190).  `amount0_sent`/`amount1_sent` are
`I256`, modelled as `Int`. -/
structure UserTradeParams where
  pool_variant : PoolVariant
  token_in : Nat
  token_out : Nat
  amount0_sent : Int
  amount1_sent : Int
  pool : Nat
  arb_pools : List Nat
  price : Nat
  token0_is_weth : Bool
  tokens : TokenPair
deriving DecidableEq, Repr

/-- Modelled from the spec: `BackrunResult` (crate `interfaces`, not under
`src/`). -/
structure BackrunResult where
  amount_in : Nat
  balance_end : Nat
  profit : Nat
  start_pool : Nat
  end_pool : Nat
  start_variant : PoolVariant
  end_variant : PoolVariant
deriving DecidableEq, Repr

/-- Modelled from the spec: `SimArbResult` (crate `interfaces`, not under
`src/`).  The field name `backrun_trade` follows the construction site in
src/simulator/src/sim/core.rs:479. -/
structure SimArbResult where
  user_trade : UserTradeParams
  backrun_trade : BackrunResult
deriving DecidableEq, Repr

/-- Modelled from the spec: `braindance_starting_balance()` from the external
`rusty_sando` collaborator, "a fixed constant" of starting WETH, "e.g. 100
WETH-equivalent in wei" (spec section 6.3). -/
def braindance_starting_balance : Nat := 100 * 10 ^ 18

/-- Pool-direction choice of `find_optimal_backrun_amount_in_out`
(src/simulator/src/sim/core.rs:428-443): returns
`(start_pool, start_pool_variant, end_pool)` given the user pool and its
variant, the candidate `other_pool`, the user-pool post-trade `price` and the
alternate pool's `alt_price`. -/
def choose_route (token0_is_weth : Bool) (price alt_price : Nat)
    (user_pool other_pool : Nat) (user_variant : PoolVariant) :
    Nat × PoolVariant × Nat :=
  if token0_is_weth then
    if alt_price < price then (user_pool, user_variant, other_pool)
    else (other_pool, user_variant.other, user_pool)
  else
    if alt_price < price then (other_pool, user_variant.other, user_pool)
    else (user_pool, user_variant, other_pool)

/-- The two pair/variant edges handed to `step_arb`
(src/simulator/src/sim/core.rs:471-472): `(start_pool, start_pool_variant)`
and `(end_pool, start_pool_variant.other())`. -/
def route_edges (route : Nat × PoolVariant × Nat) :
    (Nat × PoolVariant) × (Nat × PoolVariant) :=
  ((route.1, route.2.1), (route.2.2, route.2.1.other))

/-- Assembly of a `SimArbResult` from a successful `step_arb` outcome `res`
(src/simulator/src/sim/core.rs:476-492). -/
def route_result (start_balance : Nat) (params : UserTradeParams)
    (start_pool end_pool : Nat) (start_pool_variant : PoolVariant)
    (res : Nat × Nat) : SimArbResult :=
  { user_trade := params
    backrun_trade :=
      { amount_in := res.1
        balance_end := res.2
        profit := if start_balance < res.2 then res.2 - start_balance else 0
        start_pool := start_pool
        end_pool := end_pool
        start_variant := start_pool_variant
        end_variant := start_pool_variant.other } }

/-- C5: every emitted `SimArbResult` built by
`find_optimal_backrun_amount_in_out` (which fixes
`start_balance = braindance_starting_balance`) carries
`profit = max 0 (balance_end - starting_balance)` (as integers), with
`balance_end` the ending WETH balance returned by the optimizer (`res.2`)
and `amount_in` the optimizer's input (`res.1`). -/
theorem route_result_profit_eq_max
    (params : UserTradeParams) (start_pool end_pool : Nat)
    (sv : PoolVariant) (res : Nat × Nat) :
    ((route_result braindance_starting_balance params start_pool end_pool sv
        res).backrun_trade.profit : Int) =
      max 0 ((res.2 : Int) - (braindance_starting_balance : Int)) ∧
    (route_result braindance_starting_balance params start_pool end_pool sv
        res).backrun_trade.balance_end = res.2 ∧
    (route_result braindance_starting_balance params start_pool end_pool sv
        res).backrun_trade.amount_in = res.1 := by
  refine ⟨?_, rfl, rfl⟩
  simp only [route_result]
  by_cases h : braindance_starting_balance < res.2
  · simp only [if_pos h]
    omega
  · simp only [if_neg h]
    omega

/-- C6: for every candidate route (with the candidate pool distinct from the
user's pool, as guaranteed by the `arb_pools` invariant), the buy/sell
direction chosen at src/simulator/src/sim/core.rs:428-443 starts on the
user's pool exactly when `alt_price < price` if `token0_is_weth`, and exactly
when `price ≤ alt_price` otherwise; the start pool is always one of the two
pools, and the edge pair built at lines 471-472 always has
`end_variant = start_variant.other()`. -/
theorem choose_route_direction (t0w : Bool) (price alt_price : Nat)
    (user_pool other_pool : Nat) (user_variant : PoolVariant)
    (hne : user_pool ≠ other_pool) :
    (t0w = true →
      ((choose_route t0w price alt_price user_pool other_pool
          user_variant).1 = user_pool ↔ alt_price < price)) ∧
    (t0w = false →
      ((choose_route t0w price alt_price user_pool other_pool
          user_variant).1 = user_pool ↔ price ≤ alt_price)) ∧
    ((choose_route t0w price alt_price user_pool other_pool
        user_variant).1 = user_pool ∨
     (choose_route t0w price alt_price user_pool other_pool
        user_variant).1 = other_pool) ∧
    (route_edges (choose_route t0w price alt_price user_pool other_pool
        user_variant)).2.2 =
      ((route_edges (choose_route t0w price alt_price user_pool other_pool
          user_variant)).1.2).other := by
  cases t0w
  · by_cases h : alt_price < price
    · rw [show choose_route false price alt_price user_pool other_pool
          user_variant = (other_pool, user_variant.other, user_pool) by
          simp [choose_route, h]]
      refine ⟨by simp, ?_, Or.inr rfl, rfl⟩
      intro _
      constructor
      · intro he
        exact absurd he.symm hne
      · intro hle
        omega
    · rw [show choose_route false price alt_price user_pool other_pool
          user_variant = (user_pool, user_variant, other_pool) by
          simp [choose_route, h]]
      refine ⟨by simp, ?_, Or.inl rfl, rfl⟩
      intro _
      simp only [true_iff]
      omega
  · by_cases h : alt_price < price
    · rw [show choose_route true price alt_price user_pool other_pool
          user_variant = (user_pool, user_variant, other_pool) by
          simp [choose_route, h]]
      refine ⟨?_, by simp, Or.inl rfl, rfl⟩
      intro _
      simp only [true_iff]
      exact h
    · rw [show choose_route true price alt_price user_pool other_pool
          user_variant = (other_pool, user_variant.other, user_pool) by
          simp [choose_route, h]]
      refine ⟨?_, by simp, Or.inr rfl, rfl⟩
      intro _
      constructor
      · intro he
        exact absurd he.symm hne
      · intro hlt
        exact absurd hlt h

/-- Witness for C6 at `t0w = true`, `price = 5`, `alt_price = 3`,
`user_pool = 1`, `other_pool = 2`, `user_variant = UniswapV3`. -/
theorem choose_route_direction_witness :
    (1 : Nat) ≠ 2 ∧
    ((true = true →
      ((choose_route true 5 3 1 2 PoolVariant.UniswapV3).1 = 1 ↔ 3 < 5)) ∧
    (true = false →
      ((choose_route true 5 3 1 2 PoolVariant.UniswapV3).1 = 1 ↔ 5 ≤ 3)) ∧
    ((choose_route true 5 3 1 2 PoolVariant.UniswapV3).1 = 1 ∨
     (choose_route true 5 3 1 2 PoolVariant.UniswapV3).1 = 2) ∧
    (route_edges (choose_route true 5 3 1 2 PoolVariant.UniswapV3)).2.2 =
      ((route_edges (choose_route true 5 3 1 2
          PoolVariant.UniswapV3)).1.2).other) :=
  ⟨by decide, choose_route_direction true 5 3 1 2 PoolVariant.UniswapV3
    (by decide)⟩

/-- `MAX_DEPTH` (src/simulator/src/sim/core.rs:25). -/
def MAX_DEPTH : Nat := 4

/-- `STEP_INTERVALS` (src/simulator/src/sim/core.rs:26). -/
def STEP_INTERVALS : Nat := 15

/-- The minimum range width `U256::from(500_000) * 1_000_000_000`
(src/simulator/src/sim/core.rs:224). -/
def MIN_RANGE : Nat := 500000 * 1000000000

/-- Outcome of one spawned `sim_arb_single` sample as observed by the
aggregation loop in `step_arb` (src/simulator/src/sim/core.rs:286-313):
the task join itself may fail (`joinError`); the simulation may succeed with
an `(amount_in, balance_out)` pair; or it may fail with an error whose
message contains `"no other pool found"`, contains `"swap reverted"`, or
neither. -/
inductive SampleOutcome where
  | joinError : SampleOutcome
  | ok : Nat → Nat → SampleOutcome
  | errNoPool : SampleOutcome
  | errReverted : SampleOutcome
  | errOther : SampleOutcome
deriving DecidableEq, Repr

/-- Errors surfaced by `step_arb`. -/
inductive StepErr where
  | poolNotFound : Nat → StepErr
  | noOpportunity : StepErr
  | samplePoolError : StepErr
  | allReverted : StepErr
  | systemError : StepErr
deriving DecidableEq, Repr

deriving instance DecidableEq for Except

/-- The aggregation for-loop of `step_arb`
(src/simulator/src/sim/core.rs:286-313): walks the joined sample results in
order, carrying `best` and the `num_reverts` counter.  A join failure aborts
with a system error; a successful sample updates `best` only when its
`balance_out` strictly exceeds `best.2`; a "no other pool found" failure
aborts with that error; a "swap reverted" failure increments the counter;
after each result, if `num_reverts` has reached `revenue_len` the loop aborts
with "all swaps reverted". -/
def sweep_loop (revenue_len : Nat) :
    List SampleOutcome → Nat × Nat → Nat → Except StepErr (Nat × Nat)
  | [], best, _ => .ok best
  | r :: rest, best, num_reverts =>
    match r with
    | .joinError => .error .systemError
    | .ok amount_in balance_out =>
      let best' := if best.2 < balance_out then (amount_in, balance_out)
        else best
      if num_reverts = revenue_len then .error .allReverted
      else sweep_loop revenue_len rest best' num_reverts
    | .errNoPool => .error .samplePoolError
    | .errReverted =>
      if num_reverts + 1 = revenue_len then .error .allReverted
      else sweep_loop revenue_len rest best (num_reverts + 1)
    | .errOther =>
      if num_reverts = revenue_len then .error .allReverted
      else sweep_loop revenue_len rest best num_reverts

/-- Refined lower range bound for the recursive `step_arb` call
(src/simulator/src/sim/core.rs:317-322): `best.0 - band_width`, clamped at 0
when `best.0 < band_width`. -/
def refine_lo (best_in band_width : Nat) : Nat :=
  if best_in < band_width then 0 else best_in - band_width

/-- Refined upper range bound for the recursive `step_arb` call
(src/simulator/src/sim/core.rs:323-327): `best.0 + band_width`, clamped at
`U256::MAX` when it would overflow. -/
def refine_hi (best_in band_width : Nat) : Nat :=
  if U256_MAX - best_in < band_width then U256_MAX else best_in + band_width

/-- The recursive body of `step_arb` (src/simulator/src/sim/core.rs:196-358)
for the case where the running best `best_amount_in_out` and `depth` are
already present (after the first call every re-entry passes `Some` for both,
src lines 329-341 and 344-356, so the checks at the top of the Rust function
see `best_amount_in_out = Some best` and `depth = Some d`).  The EVM samples
are abstracted by the oracle `sims`, giving the outcome of the `i`-th
concurrent `sim_arb_single` task at recursion depth `d` as `sims d i`;
everything else follows the Rust control flow in order:
1. empty `arb_pools` fails with `PoolNotFound` (line 221-223);
2. `range[1] - range[0] < MIN_RANGE` returns the present best (line 224-233);
3. the `(0, starting_balance)` sentinel is returned when `range[0] = 0`,
   `depth ≥ 1` and the best balance is below the starting balance
   (lines 242-251);
4. the current best is returned when `depth > MAX_DEPTH` or
   `0 < best.0 < 180_000 * base_fee` (lines 252-258);
5. otherwise the sweep of `intervals` samples runs, its results are folded by
   `sweep_loop`, and the search re-enters at `depth + 1` on the refined range
   (lines 260-341). -/
def step_arb_some (sims : Nat → Nat → SampleOutcome)
    (params : UserTradeParams) (base_fee : Nat) (best : Nat × Nat)
    (range_lo range_hi : Nat) (intervals : Nat) (d : Nat) :
    Except StepErr (Nat × Nat) :=
  if params.arb_pools = [] then .error (.poolNotFound params.pool)
  else if range_hi - range_lo < MIN_RANGE then .ok best
  else if range_lo = 0 ∧ 1 ≤ d ∧ best.2 < braindance_starting_balance then
    .ok (0, braindance_starting_balance)
  else if _h : MAX_DEPTH < d ∨
      (0 < best.1 ∧ best.1 < 180000 * base_fee) then
    .ok best
  else
    let band_width := (range_hi - range_lo) / intervals
    match sweep_loop intervals
        ((List.range intervals).map (fun i => sims d i)) best 0 with
    | .error e => .error e
    | .ok best' =>
      step_arb_some sims params base_fee best'
        (refine_lo best'.1 band_width) (refine_hi best'.1 band_width)
        intervals (d + 1)
termination_by MAX_DEPTH + 1 - d
decreasing_by
  unfold MAX_DEPTH at *
  omega

/-- Entry point of `step_arb` (src/simulator/src/sim/core.rs:196-358) with
the original `Option` arguments: the caller
(`find_optimal_backrun_amount_in_out`, line 467 and 470) passes `None` for
both `best_amount_in_out` and `depth`.  The initial checks run as in Rust:
empty `arb_pools` fails (line 221); a range already below `MIN_RANGE`
returns `best_amount_in_out` when it is `Some` and fails with "no arbitrage
opportunity found" when it is still `None` (lines 224-233); otherwise the
best is seeded with `(0, braindance_starting_balance())` (line 238-239) and
the search proceeds at depth `d` (or, for `depth = None`, re-enters with
`Some 0` as on lines 343-357; the re-entry checks are idempotent, so the
re-entered call is `step_arb_some` at depth 0). -/
def step_arb (sims : Nat → Nat → SampleOutcome) (params : UserTradeParams)
    (base_fee : Nat) (best_amount_in_out : Option (Nat × Nat))
    (range_lo range_hi : Nat) (intervals : Nat) (depth : Option Nat) :
    Except StepErr (Nat × Nat) :=
  if params.arb_pools = [] then .error (.poolNotFound params.pool)
  else if range_hi - range_lo < MIN_RANGE then
    match best_amount_in_out with
    | some best => .ok best
    | none => .error .noOpportunity
  else
    let best := best_amount_in_out.getD (0, braindance_starting_balance)
    match depth with
    | some d => step_arb_some sims params base_fee best range_lo range_hi
        intervals d
    | none => step_arb_some sims params base_fee best range_lo range_hi
        intervals 0

/-- C3 counterexample: the very first `step_arb` call
(`best_amount_in_out = None`, `depth = None`) with non-empty
`arb_pools = [4]` and the degenerate range `[5, 5]` returns the
"no arbitrage opportunity found" error — not the seed result
`(0, starting_balance)` the claim promises. -/
theorem step_arb_initial_degenerate_range_counterexample :
    step_arb (fun _ _ => SampleOutcome.errOther)
      { pool_variant := .UniswapV2, token_in := 1, token_out := 2,
        amount0_sent := 0, amount1_sent := 0, pool := 3, arb_pools := [4],
        price := 0, token0_is_weth := true, tokens := ⟨1, 2⟩ }
      7 none 5 5 15 none = .error .noOpportunity ∧
    step_arb (fun _ _ => SampleOutcome.errOther)
      { pool_variant := .UniswapV2, token_in := 1, token_out := 2,
        amount0_sent := 0, amount1_sent := 0, pool := 3, arb_pools := [4],
        price := 0, token0_is_weth := true, tokens := ⟨1, 2⟩ }
      7 none 5 5 15 none ≠ .ok (0, braindance_starting_balance) := by
  constructor <;> decide

/-- C3 (amended): with non-empty `arb_pools` and a range with
`hi - lo < MIN_RANGE` (in particular the degenerate range `[x, x]`),
`step_arb` returns immediately: on the initial call, where
`best_amount_in_out` is still `None`, it fails with the "no arbitrage
opportunity found" error, and it returns the current best only when
`best_amount_in_out` is already `Some`. -/
theorem step_arb_tight_range_returns_immediately
    (sims : Nat → Nat → SampleOutcome) (params : UserTradeParams)
    (base_fee range_lo range_hi intervals : Nat) (depth : Option Nat)
    (best : Nat × Nat)
    (hpools : params.arb_pools ≠ [])
    (hrange : range_hi - range_lo < MIN_RANGE) :
    step_arb sims params base_fee none range_lo range_hi intervals depth =
      .error .noOpportunity ∧
    step_arb sims params base_fee (some best) range_lo range_hi intervals
      depth = .ok best := by
  unfold step_arb
  rw [if_neg hpools, if_neg hpools, if_pos hrange, if_pos hrange]
  exact ⟨rfl, rfl⟩

/-- Witness for the amended C3 at `arb_pools = [4]`, range `[5, 5]`. -/
theorem step_arb_tight_range_returns_immediately_witness :
    ({ pool_variant := .UniswapV2, token_in := 1, token_out := 2,
        amount0_sent := 0, amount1_sent := 0, pool := 3, arb_pools := [4],
        price := 0, token0_is_weth := true,
        tokens := ⟨1, 2⟩ } : UserTradeParams).arb_pools ≠ [] ∧
    (5 : Nat) - 5 < MIN_RANGE ∧
    (step_arb (fun _ _ => SampleOutcome.errOther)
      { pool_variant := .UniswapV2, token_in := 1, token_out := 2,
        amount0_sent := 0, amount1_sent := 0, pool := 3, arb_pools := [4],
        price := 0, token0_is_weth := true, tokens := ⟨1, 2⟩ }
      7 none 5 5 15 (some 2) = .error .noOpportunity ∧
    step_arb (fun _ _ => SampleOutcome.errOther)
      { pool_variant := .UniswapV2, token_in := 1, token_out := 2,
        amount0_sent := 0, amount1_sent := 0, pool := 3, arb_pools := [4],
        price := 0, token0_is_weth := true, tokens := ⟨1, 2⟩ }
      7 (some (9, 11)) 5 5 15 (some 2) = .ok (9, 11)) :=
  ⟨by decide, by decide,
    step_arb_tight_range_returns_immediately
      (fun _ _ => SampleOutcome.errOther)
      { pool_variant := .UniswapV2, token_in := 1, token_out := 2,
        amount0_sent := 0, amount1_sent := 0, pool := 3, arb_pools := [4],
        price := 0, token0_is_weth := true, tokens := ⟨1, 2⟩ }
      7 5 5 15 (some 2) (9, 11) (by decide) (by decide)⟩

/-- The `sweep_loop` fold never lowers the best balance: whenever it
returns `Except.ok p`, the carried best's balance is at most `p.2`
(the best is replaced only by samples whose `balance_out` strictly
exceeds it, src/simulator/src/sim/core.rs:290-291). -/
theorem sweep_loop_ok_balance_le (revenue_len : Nat)
    (outs : List SampleOutcome) (best : Nat × Nat) (num_reverts : Nat)
    (p : Nat × Nat)
    (h : sweep_loop revenue_len outs best num_reverts = .ok p) :
    best.2 ≤ p.2 := by
  induction outs generalizing best num_reverts with
  | nil =>
    simp only [sweep_loop, Except.ok.injEq] at h
    exact h ▸ le_refl _
  | cons r rest ih =>
    cases r with
    | joinError => simp [sweep_loop] at h
    | ok a b =>
      simp only [sweep_loop] at h
      split at h
      · exact absurd h (by simp)
      · refine le_trans ?_ (ih _ _ h)
        by_cases hb : best.2 < b
        · simp only [if_pos hb]
          exact le_of_lt hb
        · simp [hb]
    | errNoPool => simp [sweep_loop] at h
    | errReverted =>
      simp only [sweep_loop] at h
      split at h
      · exact absurd h (by simp)
      · exact ih _ _ h
    | errOther =>
      simp only [sweep_loop] at h
      split at h
      · exact absurd h (by simp)
      · exact ih _ _ h

/-- The recursive search never lowers the best balance: whenever
`step_arb_some` returns `Except.ok p`, the incoming best's balance is at
most `p.2`. -/
theorem step_arb_some_balance_mono (sims : Nat → Nat → SampleOutcome)
    (params : UserTradeParams) (base_fee : Nat) (best : Nat × Nat)
    (range_lo range_hi intervals d : Nat) (p : Nat × Nat)
    (h : step_arb_some sims params base_fee best range_lo range_hi intervals
      d = .ok p) :
    best.2 ≤ p.2 := by
  induction best, range_lo, range_hi, intervals, d using step_arb_some.induct
    sims params base_fee generalizing p with
  | case1 best range_lo range_hi intervals d hpool =>
    rw [step_arb_some.eq_def, if_pos hpool] at h
    exact absurd h (by simp)
  | case2 best range_lo range_hi intervals d hpool hrange =>
    rw [step_arb_some.eq_def, if_neg hpool, if_pos hrange] at h
    simp only [Except.ok.injEq] at h
    exact h ▸ le_refl _
  | case3 best range_lo range_hi intervals d hpool hrange hsent =>
    rw [step_arb_some.eq_def, if_neg hpool, if_neg hrange,
      if_pos hsent] at h
    simp only [Except.ok.injEq] at h
    exact h ▸ le_of_lt hsent.2.2
  | case4 best range_lo range_hi intervals d hpool hrange hsent hstop =>
    rw [step_arb_some.eq_def, if_neg hpool, if_neg hrange, if_neg hsent,
      dif_pos hstop] at h
    simp only [Except.ok.injEq] at h
    exact h ▸ le_refl _
  | case5 best range_lo range_hi intervals d hpool hrange hsent hstop e
      hsweep =>
    rw [step_arb_some.eq_def, if_neg hpool, if_neg hrange, if_neg hsent,
      dif_neg hstop] at h
    simp only [hsweep] at h
    exact absurd h (by simp)
  | case6 best range_lo range_hi intervals d hpool hrange hsent hstop
      band_width best' hsweep ih =>
    rw [step_arb_some.eq_def, if_neg hpool, if_neg hrange, if_neg hsent,
      dif_neg hstop] at h
    simp only [hsweep] at h
    exact le_trans (sweep_loop_ok_balance_le _ _ _ _ _ hsweep) (ih p h)

/-- C4: across every chain of recursive `step_arb` calls, for any sample
outcomes, the balance component of `current_best` never decreases: whenever
`step_arb` succeeds with `p`, the balance of the incoming
`best_amount_in_out` (seeded with `(0, braindance_starting_balance)` when
absent) is at most `p.2`. -/
theorem step_arb_best_balance_mono (sims : Nat → Nat → SampleOutcome)
    (params : UserTradeParams) (base_fee : Nat)
    (best_amount_in_out : Option (Nat × Nat))
    (range_lo range_hi intervals : Nat) (depth : Option Nat) (p : Nat × Nat)
    (h : step_arb sims params base_fee best_amount_in_out range_lo range_hi
      intervals depth = .ok p) :
    (best_amount_in_out.getD (0, braindance_starting_balance)).2 ≤ p.2 := by
  unfold step_arb at h
  by_cases hpool : params.arb_pools = []
  · rw [if_pos hpool] at h
    exact absurd h (by simp)
  · rw [if_neg hpool] at h
    by_cases hrange : range_hi - range_lo < MIN_RANGE
    · rw [if_pos hrange] at h
      cases best_amount_in_out with
      | none => exact absurd h (by simp)
      | some best =>
        simp only [Except.ok.injEq] at h
        exact h ▸ le_refl _
    · rw [if_neg hrange] at h
      cases depth with
      | none => exact step_arb_some_balance_mono _ _ _ _ _ _ _ _ _ h
      | some d => exact step_arb_some_balance_mono _ _ _ _ _ _ _ _ _ h

/-- Witness for C4 at a call that returns `Except.ok (9, 11)` from
`best_amount_in_out = some (9, 11)`. -/
theorem step_arb_best_balance_mono_witness :
    step_arb (fun _ _ => SampleOutcome.errOther)
      { pool_variant := .UniswapV2, token_in := 1, token_out := 2,
        amount0_sent := 0, amount1_sent := 0, pool := 3, arb_pools := [4],
        price := 0, token0_is_weth := true, tokens := ⟨1, 2⟩ }
      7 (some (9, 11)) 5 5 15 (some 2) = .ok (9, 11) ∧
    ((some (9, 11) : Option (Nat × Nat)).getD
      (0, braindance_starting_balance)).2 ≤ (9, 11).2 :=
  ⟨by decide,
    step_arb_best_balance_mono (fun _ _ => SampleOutcome.errOther)
      { pool_variant := .UniswapV2, token_in := 1, token_out := 2,
        amount0_sent := 0, amount1_sent := 0, pool := 3, arb_pools := [4],
        price := 0, token0_is_weth := true, tokens := ⟨1, 2⟩ }
      7 (some (9, 11)) 5 5 15 (some 2) (9, 11) (by decide)⟩

/-- One call to the external braindance swap helper
(`commit_braindance_swap` from `rusty_sando`, an external collaborator):
the arguments the repository code passes at
src/simulator/src/sim/core.rs:538-562. -/
structure SwapCall where
  variant : PoolVariant
  amount_in : Nat
  pool : Nat
  token_in : Nat
  token_out : Nat
  gas_price : Nat
deriving DecidableEq, Repr

/-- The buy-leg call of `sim_arb_single`
(src/simulator/src/sim/core.rs:538-547): swap `amount_in` of WETH for the
token on the start pool, with `gas_price = base_fee`. -/
def buy_call (tokens : TokenPair) (amount_in base_fee : Nat)
    (start_pair_variant : Nat × PoolVariant) : SwapCall :=
  { variant := start_pair_variant.2
    amount_in := amount_in
    pool := start_pair_variant.1
    token_in := tokens.weth
    token_out := tokens.token
    gas_price := base_fee }

/-- The sell-leg call of `sim_arb_single`
(src/simulator/src/sim/core.rs:553-562): swap `amount_received` of the token
back to WETH on the end pool, with
`gas_price = base_fee + (base_fee * 2500) / 10000` (i.e. `base_fee · 1.25`;
the 256-bit overflow of `base_fee * 2500`, impossible at real base fees, is
not modelled). -/
def sell_call (tokens : TokenPair) (amount_received base_fee : Nat)
    (end_pair_variant : Nat × PoolVariant) : SwapCall :=
  { variant := end_pair_variant.2
    amount_in := amount_received
    pool := end_pair_variant.1
    token_in := tokens.token
    token_out := tokens.weth
    gas_price := base_fee + base_fee * 2500 / 10000 }

/-- `sim_arb_single` (src/simulator/src/sim/core.rs:518-565).  The forked
EVM is an abstract state `σ` threaded through the two collaborators:
`user_sim` models `sim_bundle` committing the user transaction (its `?`
propagates an error), and `commit` models `commit_braindance_swap`, which
mutates the EVM and returns a `Result`.  The buy leg's result is read with
`unwrap_or(0)` (line 549), so a buy failure degrades to
`amount_received = 0`; the sell leg's `?` (line 562) propagates its error;
on success the function returns `(amount_in, res)` with `res` the sell
leg's returned WETH balance. -/
def sim_arb_single {σ ε : Type} (user_sim : σ → Except ε σ)
    (commit : SwapCall → σ → Except ε Nat × σ) (evm : σ)
    (tokens : TokenPair) (amount_in base_fee : Nat)
    (start_pair_variant end_pair_variant : Nat × PoolVariant) :
    Except ε (Nat × Nat) :=
  match user_sim evm with
  | .error e => .error e
  | .ok evm1 =>
    let buy := commit (buy_call tokens amount_in base_fee start_pair_variant)
      evm1
    let amount_received := match buy.1 with
      | .ok a => a
      | .error _ => 0
    let sell := commit
      (sell_call tokens amount_received base_fee end_pair_variant) buy.2
    match sell.1 with
    | .error e => .error e
    | .ok res => .ok (amount_in, res)

/-- C8: in `sim_arb_single`, after the user transaction commits, a failing
buy leg (issued with `gas_price = base_fee`) is absorbed by setting
`amount_received = 0` and continuing to the sell leg, a failing sell leg
(issued with `gas_price = base_fee + base_fee·2500/10000`, i.e.
`base_fee · 1.25`) propagates as an error, and on success the function
returns `(amount_in, ending WETH balance)`. -/
theorem sim_arb_single_leg_behavior {σ ε : Type}
    (user_sim : σ → Except ε σ) (commit : SwapCall → σ → Except ε Nat × σ)
    (evm evm1 : σ) (tokens : TokenPair) (amount_in base_fee : Nat)
    (start_pair_variant end_pair_variant : Nat × PoolVariant)
    (huser : user_sim evm = .ok evm1) :
    (∀ e1 evm2 bal evm3,
      commit (buy_call tokens amount_in base_fee start_pair_variant) evm1 =
        (.error e1, evm2) →
      commit (sell_call tokens 0 base_fee end_pair_variant) evm2 =
        (.ok bal, evm3) →
      sim_arb_single user_sim commit evm tokens amount_in base_fee
        start_pair_variant end_pair_variant = .ok (amount_in, bal)) ∧
    (∀ e1 evm2 e2 evm3,
      commit (buy_call tokens amount_in base_fee start_pair_variant) evm1 =
        (.error e1, evm2) →
      commit (sell_call tokens 0 base_fee end_pair_variant) evm2 =
        (.error e2, evm3) →
      sim_arb_single user_sim commit evm tokens amount_in base_fee
        start_pair_variant end_pair_variant = .error e2) ∧
    (∀ a evm2 bal evm3,
      commit (buy_call tokens amount_in base_fee start_pair_variant) evm1 =
        (.ok a, evm2) →
      commit (sell_call tokens a base_fee end_pair_variant) evm2 =
        (.ok bal, evm3) →
      sim_arb_single user_sim commit evm tokens amount_in base_fee
        start_pair_variant end_pair_variant = .ok (amount_in, bal)) ∧
    (∀ a evm2 e2 evm3,
      commit (buy_call tokens amount_in base_fee start_pair_variant) evm1 =
        (.ok a, evm2) →
      commit (sell_call tokens a base_fee end_pair_variant) evm2 =
        (.error e2, evm3) →
      sim_arb_single user_sim commit evm tokens amount_in base_fee
        start_pair_variant end_pair_variant = .error e2) ∧
    (buy_call tokens amount_in base_fee start_pair_variant).gas_price =
      base_fee ∧
    (∀ a, (sell_call tokens a base_fee end_pair_variant).gas_price =
      base_fee + base_fee * 2500 / 10000) := by
  refine ⟨?_, ?_, ?_, ?_, rfl, fun _ => rfl⟩
  · intro e1 evm2 bal evm3 hbuy hsell
    unfold sim_arb_single
    rw [huser]
    simp only [hbuy, hsell]
  · intro e1 evm2 e2 evm3 hbuy hsell
    unfold sim_arb_single
    rw [huser]
    simp only [hbuy, hsell]
  · intro a evm2 bal evm3 hbuy hsell
    unfold sim_arb_single
    rw [huser]
    simp only [hbuy, hsell]
  · intro a evm2 e2 evm3 hbuy hsell
    unfold sim_arb_single
    rw [huser]
    simp only [hbuy, hsell]

/-- Witness for C8 with `σ = Nat`, `ε = Unit`, a user commit that succeeds
and a swap oracle that echoes `amount_in + 1` (so the buy-leg-revert
conjuncts hold vacuously and the success conjunct applies at
`a = 8`, `bal = 9`): `sim_arb_single` returns `(7, 9)`. -/
theorem sim_arb_single_leg_behavior_witness :
    ((fun s => Except.ok (s + 1) : Nat → Except Unit Nat) 0 =
      Except.ok 1) ∧
    ((fun c s => ((Except.ok (c.amount_in + 1) : Except Unit Nat), s))
      (buy_call ⟨10, 20⟩ 7 3 (1, PoolVariant.UniswapV2)) 1 =
      (Except.ok 8, 1)) ∧
    ((fun c s => ((Except.ok (c.amount_in + 1) : Except Unit Nat), s))
      (sell_call ⟨10, 20⟩ 8 3 (2, PoolVariant.UniswapV3)) 1 =
      (Except.ok 9, 1)) ∧
    sim_arb_single (fun s => Except.ok (s + 1))
      (fun c s => ((Except.ok (c.amount_in + 1) : Except Unit Nat), s)) 0
      ⟨10, 20⟩ 7 3 (1, PoolVariant.UniswapV2) (2, PoolVariant.UniswapV3) =
      .ok (7, 9) :=
  ⟨rfl, rfl, rfl,
    (@sim_arb_single_leg_behavior Nat Unit (fun s => Except.ok (s + 1))
      (fun c s => (Except.ok (c.amount_in + 1), s)) 0 1 ⟨10, 20⟩ 7 3
      (1, PoolVariant.UniswapV2) (2, PoolVariant.UniswapV3)
      rfl).2.2.1 8 1 9 1 rfl rfl⟩

/-- The WETH contract address (src/simulator/src/sim/core.rs:116), as a
160-bit number. -/
def WETH_ADDRESS : Nat := 0xc02aaa39b223fe8d0a0e5c4f27ead9083c756cc2

/-- Topic 0 of the Uniswap V3 `Swap` event
(src/simulator/src/sim/core.rs:59-60). -/
def UNIV3_TOPIC : Nat :=
  0xc42079f94a6350d7e6235f29174924f928cc2ac818eb64fed8004e115fbcca67

/-- Topic 0 of the Uniswap V2 `Swap` event
(src/simulator/src/sim/core.rs:66-68). -/
def UNIV2_TOPIC : Nat :=
  0xd78ad95fa46c994b6551d0da85fc275fe613ce37657fb8d5e3d130840159d822

/-- Topic 0 of the Uniswap V2 `Sync` event
(src/simulator/src/sim/core.rs:61-62). -/
def SYNC_TOPIC : Nat :=
  0x1c411e9a96e071241c2f21f7726b17ae89e3cab4c78be50e062b03a9fffbbad1

/-- The screening topics list `uniswap_topics`
(src/simulator/src/sim/core.rs:63-69): V3 swap first, V2 swap second. -/
def uniswap_topics : List Nat := [UNIV3_TOPIC, UNIV2_TOPIC]

/-- An MEV-Share hint log (`EventTransactionLog` from the external
`mev_share_sse` crate); the deriver reads only its address and topics. -/
structure EventTransactionLog where
  address : Nat
  topics : List Nat
deriving DecidableEq, Repr

/-- A transaction-receipt log: address, topics and raw data bytes. -/
structure ReceiptLog where
  address : Nat
  topics : List Nat
  data : List Nat
deriving DecidableEq, Repr

/-- A transaction receipt; the deriver reads only its ordered logs. -/
structure Receipt where
  logs : List ReceiptLog
deriving DecidableEq, Repr

/-- `U256::from_big_endian` over a byte slice. -/
def from_big_endian (bytes : List Nat) : Nat :=
  bytes.foldl (fun acc b => acc * 256 + b) 0

/-- The 32-byte word at word-index `i` of a log's data
(`&log.data[32*i .. 32*i+32]`).  An out-of-bounds Rust slice would panic;
data shorter than the accessed word is not modelled. -/
def data_word (data : List Nat) (i : Nat) : Nat :=
  from_big_endian ((data.drop (32 * i)).take 32)

/-- `I256::from_raw`: reinterpret a raw 256-bit word in two's complement. -/
def i256_from_raw (n : Nat) : Int :=
  if n < 2 ^ 255 then (n : Int) else (n : Int) - (U256_BOUND : Int)

/-- Errors surfaced by `derive_trade_params`. -/
inductive DeriveErr where
  | txNotLanded : Nat → DeriveErr
  | noSwapLogsFound : Nat → DeriveErr
  | priceError : DeriveErr
deriving DecidableEq, Repr

/-- One iteration of the `for swap_log in swap_logs` loop of
`derive_trade_params` (src/simulator/src/sim/core.rs:88-191).  The chain
reads are abstracted by the oracles `pair_tokens` (`get_pair_tokens`) and
`other_pairs` (`get_other_pair_addresses`); `tx_receipt` is the fetched
receipt.  The hint's zeroth topic is the swap topic and its address the
user pool; the receipt log whose topics contain the swap topic and whose
address equals the pool is looked up with `find` — if absent, the iteration
fails with the "no swap logs found for tx" error (lines 94-101, the `?`
making the whole call fail).  Decoding then follows the Rust byte offsets,
and a failing price computation propagates (the `?` on lines 131 and
156). -/
def derive_one (pair_tokens : Nat → Nat × Nat)
    (other_pairs : Nat × Nat → PoolVariant → List Nat)
    (tx_receipt : Receipt) (tx_hash : Nat)
    (swap_log : EventTransactionLog) : Except DeriveErr UserTradeParams :=
  let pool_address := swap_log.address
  let swap_topic := swap_log.topics.headD 0
  match tx_receipt.logs.find? (fun log =>
      log.topics.contains swap_topic && log.address == pool_address) with
  | none => .error (.noSwapLogsFound tx_hash)
  | some receipt_swap_log =>
    let pool_variant := if swap_topic = UNIV3_TOPIC then
      PoolVariant.UniswapV3 else PoolVariant.UniswapV2
    let token0 := (pair_tokens pool_address).1
    let token1 := (pair_tokens pool_address).2
    let token0_is_weth := token0 == WETH_ADDRESS
    let sync_log := tx_receipt.logs.find? (fun log =>
      log.topics.headD 0 == SYNC_TOPIC && log.address == pool_address)
    let decoded : Except DeriveErr (Int × Int × Nat) :=
      match pool_variant with
      | PoolVariant.UniswapV3 =>
        let amount0 := i256_from_raw (data_word receipt_swap_log.data 0)
        let amount1 := i256_from_raw (data_word receipt_swap_log.data 1)
        let sqrt_price := data_word receipt_swap_log.data 2
        let liquidity := data_word receipt_swap_log.data 3
        match get_price_v3 liquidity sqrt_price 18 with
        | none => .error .priceError
        | some new_price =>
          .ok (if amount0 ≤ 0 then 0 else amount0,
            if amount1 ≤ 0 then 0 else amount1, new_price)
      | PoolVariant.UniswapV2 =>
        let amount0_out := i256_from_raw (data_word receipt_swap_log.data 2)
        let amount1_out := i256_from_raw (data_word receipt_swap_log.data 3)
        match sync_log with
        | some sl =>
          match get_price_v2 (data_word sl.data 0) (data_word sl.data 1)
              18 with
          | none => .error .priceError
          | some new_price => .ok (amount0_out, amount1_out, new_price)
        | none => .ok (amount0_out, amount1_out, 0)
    match decoded with
    | .error e => .error e
    | .ok (amount0_sent, amount1_sent, new_price) =>
      let swap_0_for_1 := 0 < amount0_sent
      let token_in := if swap_0_for_1 then token0 else token1
      let token_out := if swap_0_for_1 then token1 else token0
      let arb_pools := (other_pairs (token_in, token_out)
        pool_variant).filter (fun pool => !(pool == 0))
      .ok { pool_variant := pool_variant
            token_in := token_in
            token_out := token_out
            amount0_sent := amount0_sent
            amount1_sent := amount1_sent
            pool := pool_address
            arb_pools := arb_pools
            price := new_price
            token0_is_weth := token0_is_weth
            tokens := { weth := if token0_is_weth then token0 else token1
                        token := if token0_is_weth then token1 else token0 } }

/-- The `for` loop of `derive_trade_params` collecting one
`UserTradeParams` per hint log, in order; any error aborts the whole
derivation (every `?` inside the Rust loop returns from the function). -/
def derive_go (pair_tokens : Nat → Nat × Nat)
    (other_pairs : Nat × Nat → PoolVariant → List Nat)
    (tx_receipt : Receipt) (tx_hash : Nat) :
    List EventTransactionLog → Except DeriveErr (List UserTradeParams)
  | [] => .ok []
  | swap_log :: rest =>
    match derive_one pair_tokens other_pairs tx_receipt tx_hash swap_log with
    | .error e => .error e
    | .ok p =>
      match derive_go pair_tokens other_pairs tx_receipt tx_hash rest with
      | .error e => .error e
      | .ok ps => .ok (p :: ps)

/-- `derive_trade_params` (src/simulator/src/sim/core.rs:53-193): filter the
event's hint logs to those whose zeroth topic is a known swap topic
(line 72-78; a hint with no topics would make the Rust index `topics[0]`
panic, modelled as topic 0 which matches no swap topic), fail with
`TxNotLanded` when the receipt is absent (lines 81-84), then derive one
`UserTradeParams` per hint log. -/
def derive_trade_params (pair_tokens : Nat → Nat × Nat)
    (other_pairs : Nat × Nat → PoolVariant → List Nat)
    (receipt : Option Receipt) (tx_hash : Nat)
    (event_logs : List EventTransactionLog) :
    Except DeriveErr (List UserTradeParams) :=
  let swap_logs := event_logs.filter (fun log =>
    uniswap_topics.contains (log.topics.headD 0))
  match receipt with
  | none => .error (.txNotLanded tx_hash)
  | some tx_receipt =>
    derive_go pair_tokens other_pairs tx_receipt tx_hash swap_logs

/-- If any hint in the list fails to derive, the whole loop fails. -/
theorem derive_go_err_of_mem (pair_tokens : Nat → Nat × Nat)
    (other_pairs : Nat × Nat → PoolVariant → List Nat)
    (tx_receipt : Receipt) (tx_hash : Nat)
    (logs : List EventTransactionLog) (l : EventTransactionLog)
    (hmem : l ∈ logs)
    (herr : (derive_one pair_tokens other_pairs tx_receipt tx_hash
      l).isOk = false) :
    (derive_go pair_tokens other_pairs tx_receipt tx_hash logs).isOk =
      false := by
  induction logs with
  | nil => exact absurd hmem (List.not_mem_nil l)
  | cons head rest ih =>
    rcases List.mem_cons.mp hmem with hl | hl
    · subst hl
      unfold derive_go
      cases hone : derive_one pair_tokens other_pairs tx_receipt tx_hash
          l with
      | error e => rfl
      | ok p =>
        rw [hone] at herr
        simp [Except.isOk, Except.toBool] at herr
    · unfold derive_go
      cases hone : derive_one pair_tokens other_pairs tx_receipt tx_hash
          head with
      | error e => rfl
      | ok p =>
        cases hrest : derive_go pair_tokens other_pairs tx_receipt tx_hash
            rest with
        | error e => rfl
        | ok ps =>
          rw [hrest] at ih
          simp [Except.isOk, Except.toBool] at ih
          exact absurd hl ih

/-- C1 counterexample: with two V2-swap hints — hint `⟨1, [V2 swap]⟩`
with no matching receipt log and hint `⟨2, [V2 swap]⟩` with one — the
deriver fails the whole transaction with the "no swap logs found" error.
It does not skip the unmatched hint: alone, the matched hint `⟨2, …⟩`
derives successfully. -/
theorem derive_trade_params_missing_hint_counterexample :
    derive_trade_params (fun _ => (100, 200)) (fun _ _ => [5])
      (some ⟨[⟨2, [UNIV2_TOPIC], List.replicate 128 0⟩]⟩) 7
      [⟨1, [UNIV2_TOPIC]⟩, ⟨2, [UNIV2_TOPIC]⟩] =
      .error (.noSwapLogsFound 7) ∧
    (derive_trade_params (fun _ => (100, 200)) (fun _ _ => [5])
      (some ⟨[⟨2, [UNIV2_TOPIC], List.replicate 128 0⟩]⟩) 7
      [⟨2, [UNIV2_TOPIC]⟩]).isOk = true := by
  constructor <;> decide

/-- C1 (amended): a hint log whose swap topic has no matching receipt log
(no receipt log with the same address whose topics contain that topic) makes
`derive_trade_params` fail the whole transaction with an error; no
`UserTradeParams` are emitted for the other hints. -/
theorem derive_trade_params_unmatched_hint_fails
    (pair_tokens : Nat → Nat × Nat)
    (other_pairs : Nat × Nat → PoolVariant → List Nat)
    (tx_receipt : Receipt) (tx_hash : Nat)
    (event_logs : List EventTransactionLog) (l : EventTransactionLog)
    (hmem : l ∈ event_logs.filter (fun log =>
      uniswap_topics.contains (log.topics.headD 0)))
    (hnomatch : tx_receipt.logs.find? (fun log =>
      log.topics.contains (l.topics.headD 0) && log.address == l.address) =
      none) :
    (derive_trade_params pair_tokens other_pairs (some tx_receipt) tx_hash
      event_logs).isOk = false := by
  unfold derive_trade_params
  refine derive_go_err_of_mem pair_tokens other_pairs tx_receipt tx_hash _ l
    hmem ?_
  unfold derive_one
  simp only [hnomatch]
  rfl

/-- Witness for the amended C1 at the counterexample's unmatched hint. -/
theorem derive_trade_params_unmatched_hint_fails_witness :
    (⟨1, [UNIV2_TOPIC]⟩ : EventTransactionLog) ∈
      ([⟨1, [UNIV2_TOPIC]⟩, ⟨2, [UNIV2_TOPIC]⟩] :
        List EventTransactionLog).filter (fun log =>
          uniswap_topics.contains (log.topics.headD 0)) ∧
    (⟨[⟨2, [UNIV2_TOPIC], List.replicate 128 0⟩]⟩ :
      Receipt).logs.find? (fun log =>
        log.topics.contains
          ((⟨1, [UNIV2_TOPIC]⟩ : EventTransactionLog).topics.headD 0) &&
        log.address == (⟨1, [UNIV2_TOPIC]⟩ : EventTransactionLog).address) =
      none ∧
    (derive_trade_params (fun _ => (100, 200)) (fun _ _ => [5])
      (some ⟨[⟨2, [UNIV2_TOPIC], List.replicate 128 0⟩]⟩) 7
      [⟨1, [UNIV2_TOPIC]⟩, ⟨2, [UNIV2_TOPIC]⟩]).isOk = false :=
  ⟨by decide, by decide,
    derive_trade_params_unmatched_hint_fails (fun _ => (100, 200))
      (fun _ _ => [5]) ⟨[⟨2, [UNIV2_TOPIC], List.replicate 128 0⟩]⟩ 7
      [⟨1, [UNIV2_TOPIC]⟩, ⟨2, [UNIV2_TOPIC]⟩] ⟨1, [UNIV2_TOPIC]⟩
      (by decide) (by decide)⟩

/-- One window iteration of the `while processed_txs < txs.len()` loop of
`process_orderflow` (src/simulator/src/hindsight.rs:36-68).  `sim`
abstracts `simulate_backrun_arbs(..).ok()` (a per-transaction failure
becomes `none` and is filtered out, line 50 and 58-59; spawned-task join
failures, also filtered on line 56, are not modelled); `write_arbs`
abstracts the external persistence sink `ArbDb::write_arbs`.  The window is
`txs.iter().skip(processed_txs).take(batch_size)` (lines 38-43),
`processed_txs` advances by the window's length (line 44), and when a sink
is connected and the window's results are non-empty the batch is written,
the `?` on line 65 propagating a sink error out of the whole function. -/
def orderflow_step {τ α : Type} (sim : τ → Option α)
    (write_arbs : List α → Except Unit Unit) (txs : List τ)
    (batch_size : Nat) (connect : Bool) (processed_txs : Nat) :
    Except Unit Nat :=
  let txs_batch := (txs.drop processed_txs).take batch_size
  let processed' := processed_txs + txs_batch.length
  let results := txs_batch.filterMap sim
  if connect && !results.isEmpty then
    match write_arbs results with
    | .ok _ => .ok processed'
    | .error e => .error e
  else .ok processed'

/-- The `process_orderflow` loop with explicit fuel: `none` means the fuel
ran out before the loop finished (used below to express that the loop
never terminates when `batch_size = 0`); `some r` is the function's
result — `Ok(())` when `processed_txs` reaches `txs.len()`
(src/simulator/src/hindsight.rs:69), or the propagated sink error. -/
def process_orderflow_go {τ α : Type} (sim : τ → Option α)
    (write_arbs : List α → Except Unit Unit) (txs : List τ)
    (batch_size : Nat) (connect : Bool) :
    Nat → Nat → Option (Except Unit Unit)
  | 0, _ => none
  | fuel + 1, processed_txs =>
    if processed_txs < txs.length then
      match orderflow_step sim write_arbs txs batch_size connect
          processed_txs with
      | .error e => some (.error e)
      | .ok processed' =>
        process_orderflow_go sim write_arbs txs batch_size connect fuel
          processed'
    else some (.ok ())

/-- `process_orderflow` (src/simulator/src/hindsight.rs:27-70), run with
fuel `txs.length + 1`, which suffices for every positive `batch_size`
(each successful window advances `processed_txs` by at least one). -/
def process_orderflow {τ α : Type} (sim : τ → Option α)
    (write_arbs : List α → Except Unit Unit) (txs : List τ)
    (batch_size : Nat) (connect : Bool) : Option (Except Unit Unit) :=
  process_orderflow_go sim write_arbs txs batch_size connect
    (txs.length + 1) 0

/-- With `batch_size = 0` the window is empty, so the step neither writes
nor advances `processed_txs`. -/
theorem orderflow_step_zero_batch {τ α : Type} (sim : τ → Option α)
    (write_arbs : List α → Except Unit Unit) (txs : List τ)
    (connect : Bool) (processed_txs : Nat) :
    orderflow_step sim write_arbs txs 0 connect processed_txs =
      .ok processed_txs := by
  simp [orderflow_step]

/-- With `batch_size = 0` and any unfinished position, the loop runs out of
any amount of fuel: it never terminates. -/
theorem process_orderflow_go_zero_batch_none {τ α : Type}
    (sim : τ → Option α) (write_arbs : List α → Except Unit Unit)
    (txs : List τ) (connect : Bool) (fuel processed_txs : Nat)
    (hlt : processed_txs < txs.length) :
    process_orderflow_go sim write_arbs txs 0 connect fuel processed_txs =
      none := by
  induction fuel generalizing processed_txs with
  | zero => rfl
  | succ fuel ih =>
    unfold process_orderflow_go
    rw [if_pos hlt, orderflow_step_zero_batch]
    exact ih processed_txs hlt

/-- A successful window advances `processed_txs` by the window length. -/
theorem orderflow_step_ok_advance {τ α : Type} (sim : τ → Option α)
    (write_arbs : List α → Except Unit Unit) (txs : List τ)
    (batch_size : Nat) (connect : Bool) (processed_txs r : Nat)
    (h : orderflow_step sim write_arbs txs batch_size connect
      processed_txs = .ok r) :
    r = processed_txs + ((txs.drop processed_txs).take batch_size).length
    := by
  unfold orderflow_step at h
  dsimp only at h
  split at h
  · split at h
    · simp only [Except.ok.injEq] at h
      omega
    · exact absurd h (by simp)
  · simp only [Except.ok.injEq] at h
    omega

/-- With `1 ≤ batch_size`, fuel `txs.length - processed_txs + 1` suffices:
the loop terminates with some result. -/
theorem process_orderflow_go_pos_batch_terminates {τ α : Type}
    (sim : τ → Option α) (write_arbs : List α → Except Unit Unit)
    (txs : List τ) (batch_size : Nat) (connect : Bool)
    (hbs : 1 ≤ batch_size) :
    ∀ fuel processed_txs, txs.length - processed_txs < fuel →
      ∃ r, process_orderflow_go sim write_arbs txs batch_size connect fuel
        processed_txs = some r := by
  intro fuel
  induction fuel with
  | zero => intro p hp; omega
  | succ fuel ih =>
    intro p hp
    unfold process_orderflow_go
    by_cases hlt : p < txs.length
    · rw [if_pos hlt]
      cases hstep : orderflow_step sim write_arbs txs batch_size connect
          p with
      | error e => exact ⟨.error e, rfl⟩
      | ok p' =>
        have hadv := orderflow_step_ok_advance sim write_arbs txs
          batch_size connect p p' hstep
        have hlen : ((txs.drop p).take batch_size).length =
            min batch_size (txs.length - p) := by
          simp [List.length_take, List.length_drop]
        refine ih p' ?_
        omega
    · rw [if_neg hlt]
      exact ⟨.ok (), rfl⟩

/-- C10: with a non-empty transaction list, `process_orderflow` terminates
exactly when `batch_size ≥ 1`; with `batch_size = 0` the window taken each
iteration is empty, `processed_txs` never advances, and the loop never
terminates (no amount of fuel yields a result). -/
theorem process_orderflow_terminates_iff_pos_batch {τ α : Type}
    (sim : τ → Option α) (write_arbs : List α → Except Unit Unit)
    (txs : List τ) (batch_size : Nat) (connect : Bool)
    (processed_txs : Nat) (hne : txs ≠ []) :
    orderflow_step sim write_arbs txs 0 connect processed_txs =
      .ok processed_txs ∧
    ((∃ fuel r, process_orderflow_go sim write_arbs txs batch_size connect
      fuel 0 = some r) ↔ 1 ≤ batch_size) := by
  refine ⟨orderflow_step_zero_batch sim write_arbs txs connect
    processed_txs, ?_, ?_⟩
  · rintro ⟨fuel, r, hr⟩
    by_contra hbs
    have hb0 : batch_size = 0 := by omega
    subst hb0
    rw [process_orderflow_go_zero_batch_none sim write_arbs txs connect
      fuel 0 (List.length_pos.mpr hne)] at hr
    exact Option.noConfusion hr
  · intro hbs
    obtain ⟨r, hr⟩ := process_orderflow_go_pos_batch_terminates sim
      write_arbs txs batch_size connect hbs (txs.length + 1) 0 (by omega)
    exact ⟨txs.length + 1, r, hr⟩

/-- Witness for C10 at `txs = [0]`, `batch_size = 1` (and position 3 for
the zero-batch step conjunct). -/
theorem process_orderflow_terminates_iff_pos_batch_witness :
    ([0] : List Nat) ≠ [] ∧
    (orderflow_step (fun _ : Nat => some 42) (fun _ => Except.error ())
      [0] 0 true 3 = .ok 3 ∧
    ((∃ fuel r, process_orderflow_go (fun _ : Nat => some 42)
      (fun _ => Except.error ()) [0] 1 true fuel 0 = some r) ↔
      1 ≤ 1)) :=
  ⟨by decide,
    process_orderflow_terminates_iff_pos_batch (fun _ : Nat => some 42)
      (fun _ => Except.error ()) [0] 1 true 3 (by decide)⟩

/-- C2 counterexample: one window (`txs = [0]`, `batch_size = 1`) whose
sink write fails makes `process_orderflow` return the sink's error for the
whole run — not success. -/
theorem process_orderflow_sink_failure_counterexample :
    process_orderflow (fun _ : Nat => some 42) (fun _ => Except.error ())
      [0] 1 true = some (.error ()) ∧
    process_orderflow (fun _ : Nat => some 42) (fun _ => Except.error ())
      [0] 1 true ≠ some (.ok ()) := by
  constructor <;> decide

/-- C2 (amended): a persistence-sink failure while writing one window's
results is fatal for the entire run: `process_orderflow` immediately
returns that error and processes no further windows. -/
theorem process_orderflow_sink_failure_fatal {τ α : Type}
    (sim : τ → Option α) (write_arbs : List α → Except Unit Unit)
    (txs : List τ) (batch_size : Nat) (connect : Bool)
    (fuel processed_txs : Nat) (e : Unit)
    (hlt : processed_txs < txs.length)
    (hstep : orderflow_step sim write_arbs txs batch_size connect
      processed_txs = .error e) :
    process_orderflow_go sim write_arbs txs batch_size connect (fuel + 1)
      processed_txs = some (.error e) := by
  unfold process_orderflow_go
  rw [if_pos hlt, hstep]

/-- Witness for the amended C2 at the counterexample's failing window. -/
theorem process_orderflow_sink_failure_fatal_witness :
    (0 : Nat) < ([0] : List Nat).length ∧
    orderflow_step (fun _ : Nat => some 42) (fun _ => Except.error ())
      [0] 1 true 0 = .error () ∧
    process_orderflow_go (fun _ : Nat => some 42)
      (fun _ => Except.error ()) [0] 1 true 2 0 = some (.error ()) :=
  ⟨by decide, by decide,
    process_orderflow_sink_failure_fatal (fun _ : Nat => some 42)
      (fun _ => Except.error ()) [0] 1 true 1 0 () (by decide)
      (by decide)⟩

/-- `Config` (src/src/config.rs:4-9). -/
structure Config where
  rpc_url_ws : String
  mongo_url : String
  postgres_url : Option String
deriving DecidableEq, Repr

/-- `Config::default()` (src/src/config.rs:11-24).  The process environment
is modelled as a function from variable names to optional values (the
`.env`-file load only logs its error, so it is part of `env`).  `expect`
panics are modelled as `none`; struct-literal fields are evaluated in
written order — `MONGO_URL` (required, `expect`), `POSTGRES_URL`
(optional, `.ok()`), `RPC_URL_WS` (required, `expect`). -/
def Config.default (env : String → Option String) : Option Config :=
  match env "MONGO_URL" with
  | none => none
  | some mongo_url =>
    let postgres_url := env "POSTGRES_URL"
    match env "RPC_URL_WS" with
    | none => none
    | some rpc_url_ws =>
      some { rpc_url_ws := rpc_url_ws, mongo_url := mongo_url,
             postgres_url := postgres_url }

/-- C9 counterexample: an environment that sets `RPC_URL_WS` but not
`MONGO_URL` makes `Config::default()` fail (the `expect` on `MONGO_URL`
panics), refuting "fails only when RPC_URL_WS is unset". -/
theorem config_default_rpc_only_counterexample :
    Config.default (fun k => if k = "RPC_URL_WS" then
      some "ws://localhost:8545" else none) = none ∧
    (fun k => if k = "RPC_URL_WS" then some "ws://localhost:8545"
      else none) "RPC_URL_WS" = some "ws://localhost:8545" := by
  constructor <;> decide

/-- C9 (amended): `Config::default()` succeeds exactly when both
`MONGO_URL` and `RPC_URL_WS` are set; `POSTGRES_URL` remains optional and
its absence never causes a failure. -/
theorem config_default_succeeds_iff (env : String → Option String) :
    (Config.default env).isSome =
      ((env "MONGO_URL").isSome && (env "RPC_URL_WS").isSome) := by
  unfold Config.default
  cases hm : env "MONGO_URL" with
  | none => rfl
  | some m =>
    cases hr : env "RPC_URL_WS" with
    | none => rfl
    | some r => rfl

end Hindsight
